import Mathlib

/-!
Verification of the cat19 repository's front-end logic: the auto-sizing input
widgets (`InlineCharField` in field_inline_char.js and `AutoMany2XAutocomplete`
in inline_many2one.js), the fees list-view create override (page_list.js), the
`PageUrlField` value getter, and the `FeesTermsDisplay` component setup.

The browser DOM is modelled shallowly: text metrics are an abstract oracle
`Measure`, the measuring span and the bound input are records of the fields the
code reads and writes, and `document.body` keeps the list of appended sizer
node ids.  JavaScript runtime errors (dereferencing a null element) surface as
`Except.error`; early returns surface as `Except.ok` with the state unchanged.
-/

/-- Text-metrics oracle: `m font text` is the rendered pixel width of `text`
in `font` (the width reported by the browser for the off-screen span, i.e. its
`offsetWidth` once its `textContent` and `style.font` are set). -/
abbrev Measure := String → String → Nat

/-- JavaScript string disjunction `a || b`: the empty string is falsy. -/
def jsOr (a b : String) : String :=
  if a = "" then b else a

/-- JavaScript `a || b` where `a` may be `null`/`undefined` (modelled `none`). -/
def jsOrOpt (a : Option String) (b : String) : String :=
  match a with
  | none => b
  | some s => if s = "" then b else s

/-- The off-screen measuring span (`this._sizer`): document-body node id,
`textContent`, and `style.font`. -/
structure SizerEl where
  id : Nat
  textContent : String
  font : String
deriving DecidableEq, Repr

/-- The bound `<input>` element as the resize routines see it: `value`,
`placeholder`, computed-style font, the `scrollWidth` the browser reports once
`style.width` has been forced to `"1px"`, and the current `style.width` pixel
value (`none` before any assignment). -/
structure InputEl where
  value : String
  placeholder : String
  font : String
  scrollWidth : Nat
  styleWidth : Option Nat
deriving DecidableEq, Repr

/-- Document state: ids of sizer spans currently appended to `document.body`,
a fresh-id counter for `document.createElement`, and
`getComputedStyle(document.body).font`. -/
structure DomDoc where
  bodySizers : List Nat
  nextId : Nat
  bodyFont : String
deriving DecidableEq, Repr

/-- Per-instance widget fields shared by `InlineCharField` and
`AutoMany2XAutocomplete`: the `_sizer` reference, plus an instrumentation
counter recording how many times `_resizeInput` has been entered. -/
structure WidgetBox where
  sizer : Option SizerEl
  resizeCount : Nat
deriving DecidableEq, Repr

/-- A freshly constructed widget instance: no sizer yet. -/
def freshWidget : WidgetBox :=
  { sizer := none, resizeCount := 0 }

/-- The `_createSizer` method, textually identical in `InlineCharField`,
`AutoMany2XAutocomplete` and `InlineMany2OneField`: if `this._sizer` is unset,
create a span (empty text, font from `document.body`'s computed style) and
append it to `document.body`; otherwise do nothing. -/
def createSizer (w : WidgetBox) (doc : DomDoc) : WidgetBox × DomDoc :=
  match w.sizer with
  | some _ => (w, doc)
  | none =>
      ({ w with sizer := some { id := doc.nextId, textContent := "", font := doc.bodyFont } },
       { doc with
          bodySizers := doc.bodySizers ++ [doc.nextId],
          nextId := doc.nextId + 1 })

/-- Uncurried `createSizer`, for iteration statements. -/
def createSizerP (p : WidgetBox × DomDoc) : WidgetBox × DomDoc :=
  createSizer p.1 p.2

/-- The `InlineCharField._resizeInput` method (the identical body also appears
as `InlineMany2OneField._resizeInput`).  `input` is `this.input.el`, `none`
when the DOM element is absent, in which case the routine returns early.  With
a non-empty value, `style.width` is set to `"1px"` and then to
`scrollWidth + 2` pixels, never touching the sizer.  With an empty value, the
sizer receives `placeholder || ""` as text and the input's computed font, and
`style.width` becomes the sizer's `offsetWidth + 10` pixels; dereferencing a
null `_sizer` on this path is a TypeError. -/
def charResizeInput (m : Measure) (w : WidgetBox) (input : Option InputEl) :
    Except String (WidgetBox × Option InputEl) :=
  let w1 : WidgetBox := { w with resizeCount := w.resizeCount + 1 }
  match input with
  | none => .ok (w1, none)
  | some inp =>
      if inp.value ≠ "" then
        .ok (w1, some { inp with styleWidth := some (inp.scrollWidth + 2) })
      else
        match w1.sizer with
        | none => .error "TypeError: this._sizer is null"
        | some z =>
            let z1 : SizerEl := { z with textContent := jsOr inp.placeholder "", font := inp.font }
            .ok ({ w1 with sizer := some z1 },
                 some { inp with styleWidth := some (m z1.font z1.textContent + 10) })

/-- The `AutoMany2XAutocomplete._resizeInput` method.  `container` models
`this.autoCompleteContainer.el` (`none` when detached, making the
`querySelector` call a TypeError); the inner option is the result of
`querySelector('input')`, with `none` causing the early return.  Otherwise the
text is `defaultValue || input.value || input.placeholder || ""`, the sizer
receives that text and the input's computed font, and `style.width` becomes
the sizer's `offsetWidth + 20` pixels. -/
def autoResizeInput (m : Measure) (defaultValue : Option String) (w : WidgetBox)
    (container : Option (Option InputEl)) :
    Except String (WidgetBox × Option (Option InputEl)) :=
  let w1 : WidgetBox := { w with resizeCount := w.resizeCount + 1 }
  match container with
  | none => .error "TypeError: this.autoCompleteContainer.el is null"
  | some none => .ok (w1, some none)
  | some (some inp) =>
      let value := jsOrOpt defaultValue (jsOr inp.value (jsOr inp.placeholder ""))
      match w1.sizer with
      | none => .error "TypeError: this._sizer is null"
      | some z =>
          let z1 : SizerEl := { z with textContent := value, font := inp.font }
          .ok ({ w1 with sizer := some z1 },
               some (some { inp with styleWidth := some (m z1.font z1.textContent + 20) }))

/-- The `InlineCharField.willUnmount` method: if `this._sizer` is set, call
`remove()` on it (detaching that node from `document.body`) and null the
field.  `AutoMany2XAutocomplete` defines no such method. -/
def charWillUnmount (w : WidgetBox) (doc : DomDoc) : WidgetBox × DomDoc :=
  match w.sizer with
  | none => (w, doc)
  | some z =>
      ({ w with sizer := none },
       { doc with bodySizers := doc.bodySizers.filter (fun n => n != z.id) })

/-- Combined state of one `InlineCharField` instance with its document and its
bound input element. -/
structure CharSys where
  widget : WidgetBox
  doc : DomDoc
  input : Option InputEl
deriving DecidableEq, Repr

/-- Events `InlineCharField` handles: the owl `onMounted` hook and the
`onInputType` content-change callback. -/
inductive CharEvent where
  | mounted
  | inputType
deriving DecidableEq, Repr

/-- Event dispatch of `InlineCharField`: `setup` registers
`onMounted(() => { this._createSizer(); this._resizeInput(); })`, and
`onInputType` runs `this._resizeInput()`. -/
def charStep (m : Measure) (e : CharEvent) (s : CharSys) : Except String CharSys :=
  match e with
  | .mounted =>
      let p := createSizer s.widget s.doc
      (charResizeInput m p.1 s.input).map fun q => ⟨q.1, p.2, q.2⟩
  | .inputType =>
      (charResizeInput m s.widget s.input).map fun q => ⟨q.1, s.doc, q.2⟩

/-- Combined state of one `AutoMany2XAutocomplete` instance with its document
and its autocomplete container element. -/
structure AutoSys where
  widget : WidgetBox
  doc : DomDoc
  container : Option (Option InputEl)
deriving DecidableEq, Repr

/-- Events `AutoMany2XAutocomplete` handles: the owl `onMounted` hook, the
`onChange` content-change callback, and the `onSelect` selection callback
(whose option carries a possibly undefined `displayName`). -/
inductive AutoEvent where
  | mounted
  | change (inputValue : String)
  | select (displayName : Option String)
deriving DecidableEq, Repr

/-- Event dispatch of `AutoMany2XAutocomplete`: `setup` registers
`onMounted(() => { this._createSizer(); this._resizeInput(); })`; `onChange`
calls `super.onChange` then `this._resizeInput()`; `onSelect` calls
`super.onSelect` then `this._resizeInput(option.displayName)`. -/
def autoStep (m : Measure) (e : AutoEvent) (s : AutoSys) : Except String AutoSys :=
  match e with
  | .mounted =>
      let p := createSizer s.widget s.doc
      (autoResizeInput m none p.1 s.container).map fun q => ⟨q.1, p.2, q.2⟩
  | .change _ =>
      (autoResizeInput m none s.widget s.container).map fun q => ⟨q.1, s.doc, q.2⟩
  | .select dn =>
      (autoResizeInput m dn s.widget s.container).map fun q => ⟨q.1, s.doc, q.2⟩

/-- One mount/unmount cycle of a fresh `InlineCharField` instance: `setup`
constructs the instance, mounting runs `_createSizer` and `_resizeInput`, and
unmounting runs `willUnmount`.  Only the document survives the cycle.  The
error branch is unreachable because the sizer was created just above. -/
def charCycle (m : Measure) (input : Option InputEl) (doc : DomDoc) : DomDoc :=
  let p := createSizer freshWidget doc
  match charResizeInput m p.1 input with
  | .ok q => (charWillUnmount q.1 p.2).2
  | .error _ => p.2

/-- Iterated mount/unmount cycles of fresh `InlineCharField` instances. -/
def charCycles (m : Measure) (input : Option InputEl) : Nat → DomDoc → DomDoc
  | 0, doc => doc
  | n + 1, doc => charCycles m input n (charCycle m input doc)

/-- One mount/unmount cycle of a fresh `AutoMany2XAutocomplete` instance:
mounting runs `_createSizer` and `_resizeInput`; the class defines no
`willUnmount`, so unmounting runs no cleanup and the appended sizer node stays
in `document.body`. -/
def autoCycle (m : Measure) (container : Option (Option InputEl)) (doc : DomDoc) : DomDoc :=
  let p := createSizer freshWidget doc
  match autoResizeInput m none p.1 container with
  | .ok _ => p.2
  | .error _ => p.2

/-- Iterated mount/unmount cycles of fresh `AutoMany2XAutocomplete`
instances. -/
def autoCycles (m : Measure) (container : Option (Option InputEl)) :
    Nat → DomDoc → DomDoc
  | 0, doc => doc
  | n + 1, doc => autoCycles m container n (autoCycle m container doc)

/-- A concrete constant text-metrics oracle, for evaluating the model. -/
def constMeasure : Measure := fun _ _ => 5

/-- A document whose body holds no sizer nodes yet. -/
def emptyDoc : DomDoc :=
  { bodySizers := [], nextId := 0, bodyFont := "16px serif" }

/-! ## The fees list view (page_list.js) -/

/-- Modelled from the spec: the host framework services a list controller
uses — `actionService.doAction` dispatching a named action, and the
framework's stock record-creation behavior.  The framework itself is not part
of this repository. -/
structure HostServices (α : Type) where
  doAction : String → α
  defaultCreateRecord : α

/-- A list-view definition, reduced to the one part `page_list.js` overrides:
the controller's `onClickCreate` handler. -/
structure ListViewDef where
  onClickCreate : {α : Type} → HostServices α → α

/-- Modelled from the spec: the host framework's stock `listView`, whose
create button runs the default record-creation behavior. -/
def listView : ListViewDef :=
  { onClickCreate := fun h => h.defaultCreateRecord }

/-- `PageListController.onClickCreate`: returns
`this.actionService.doAction('openeducat_fees.action_select_fees_term_type')`. -/
def pageListOnClickCreate {α : Type} (h : HostServices α) : α :=
  h.doAction "openeducat_fees.action_select_fees_term_type"

/-- `PageListView`: the stock `listView` spread with the controller replaced
by `PageListController`. -/
def PageListView : ListViewDef :=
  { listView with onClickCreate := fun h => pageListOnClickCreate h }

/-- The views registry after `registry.category("views").add("fees_wizard_list",
PageListView)`. -/
def viewsRegistry : List (String × ListViewDef) :=
  [("fees_wizard_list", PageListView)]

/-- Outcomes of clicking create, distinguished syntactically: either the named
action was dispatched, or the framework's stock record creation ran. -/
inductive CreateOutcome where
  | dispatched (action : String)
  | defaultNewRecord
deriving DecidableEq, Repr

/-- Host services that record which path ran. -/
def traceServices : HostServices CreateOutcome :=
  { doAction := fun a => .dispatched a, defaultCreateRecord := .defaultNewRecord }

/-! ## The PageUrlField value getter (unnamed source, part_001) -/

/-- JavaScript `String.prototype.trim`: strip whitespace from both ends.
Strings are modelled as `List Char`. -/
def jsTrim (s : List Char) : List Char :=
  (((s.dropWhile Char.isWhitespace).reverse).dropWhile Char.isWhitespace).reverse

/-- The `PageUrlField.value` getter: read the stored field value, strip one
leading slash when `value[0] === "/"` (via `substring(1)`), write
`` `/${value.trim()}` `` back into `record.data`, and return the stripped
value.  The result pairs the returned (displayed) value with the new stored
value. -/
def pageUrlFieldValue (stored : List Char) : List Char × List Char :=
  let value : List Char :=
    match stored with
    | c :: rest => if c = '/' then rest else stored
    | [] => stored
  (value, '/' :: jsTrim value)

/-! ## The FeesTermsDisplay component setup (unnamed source, part_001) -/

/-- A rendered fees-term entry as built in `FeesTermsDisplay.setup`. -/
structure Term where
  value : String
  label : String
  description : String
deriving DecidableEq, Repr

/-- `FeesTermsDisplay.setup`: from the field's `selection` (value/label
pairs) keep the entries where `item[0] || item[1]` is truthy, and map each to
`{value, label, description}` with the description read from the record's
`fees_terms_description` field via `|| ''` (the field may be absent/falsy,
modelled as `Option String`). -/
def feesTermsDisplayTerms (selection : List (String × String))
    (feesTermsDescription : Option String) : List Term :=
  (selection.filter (fun it => decide (it.1 ≠ "") || decide (it.2 ≠ ""))).map
    (fun it =>
      { value := it.1, label := it.2,
        description := jsOrOpt feesTermsDescription "" })

/-! ## Sample states used in counterexamples and witnesses -/

/-- A widget instance whose sizer span exists and is still empty. -/
def wSample : WidgetBox :=
  { sizer := some { id := 0, textContent := "", font := "16px serif" }, resizeCount := 0 }

/-- An input holding the non-empty value "a". -/
def inpA : InputEl :=
  { value := "a", placeholder := "p", font := "f", scrollWidth := 100, styleWidth := none }

/-- An input whose value is empty but whose placeholder is "pick". -/
def inpEmptyVal : InputEl :=
  { value := "", placeholder := "pick", font := "f", scrollWidth := 0, styleWidth := none }

/-- A char-field system about to mount: fresh widget, empty document, no
input element yet. -/
def charSysSample : CharSys :=
  { widget := freshWidget, doc := emptyDoc, input := none }

/-- An autocomplete system about to mount, its container attached and holding
the empty-value input. -/
def autoSysSample : AutoSys :=
  { widget := freshWidget, doc := emptyDoc, container := some (some inpEmptyVal) }

/-! ## Theorems -/

/-- C2: the spec requires the measuring element to be removed exactly once on
unmount, leaving no leaked sizer nodes over repeated mount/unmount cycles.
`InlineCharField` satisfies this (two cycles leave the body empty), but
`AutoMany2XAutocomplete` defines no `willUnmount`, so two mount/unmount cycles
leave two orphan sizer spans in `document.body` — the code contradicts the
documented teardown behavior. -/
theorem autoMany2x_unmount_leaks_sizers :
    (autoCycles constMeasure (some none) 2 emptyDoc).bodySizers.length = 2 ∧
    (charCycles constMeasure none 2 emptyDoc).bodySizers.length = 0 := by
  constructor <;> rfl

/-- C8: the views registry maps "fees_wizard_list" to `PageListView`, whose
controller's `onClickCreate` returns the result of dispatching the wizard
action `openeducat_fees.action_select_fees_term_type` through the action
service, and never runs the stock record-creation behavior. -/
theorem fees_wizard_list_create_dispatches_wizard :
    viewsRegistry.lookup "fees_wizard_list" = some PageListView ∧
    (∀ (α : Type) (h : HostServices α),
        PageListView.onClickCreate h =
          h.doAction "openeducat_fees.action_select_fees_term_type") ∧
    PageListView.onClickCreate traceServices =
      CreateOutcome.dispatched "openeducat_fees.action_select_fees_term_type" ∧
    PageListView.onClickCreate traceServices ≠ listView.onClickCreate traceServices :=
  ⟨rfl, fun _ _ => rfl, rfl, by decide⟩

/-- C9: the `PageUrlField.value` getter returns the stored string with one
leading slash stripped when present (and unchanged otherwise), writes back a
slash followed by the trimmed displayed value, and hence the stored value
always begins with a slash after any read. -/
theorem pageUrlField_value_strips_and_restores_slash :
    (∀ s : List Char, pageUrlFieldValue ('/' :: s) = (s, '/' :: jsTrim s)) ∧
    (∀ v : List Char, v.head? ≠ some '/' → pageUrlFieldValue v = (v, '/' :: jsTrim v)) ∧
    (∀ v : List Char, (pageUrlFieldValue v).2.head? = some '/') := by
  refine ⟨fun s => rfl, fun v hv => ?_, fun v => ?_⟩
  · cases v with
    | nil => rfl
    | cons c t =>
        have hc : c ≠ '/' := by simpa using hv
        simp [pageUrlFieldValue, hc]
  · cases v with
    | nil => rfl
    | cons c t =>
        by_cases hc : c = '/' <;> simp [pageUrlFieldValue, hc]

/-- Witness for C9 at the concrete stored value "a". -/
theorem pageUrlField_value_witness :
    (['a'] : List Char).head? ≠ some '/' ∧
    pageUrlFieldValue ['a'] = (['a'], '/' :: jsTrim ['a']) :=
  ⟨by decide, pageUrlField_value_strips_and_restores_slash.2.1 ['a'] (by decide)⟩

/-- C10: the terms built by `FeesTermsDisplay.setup` are exactly the selection
entries whose value or label is truthy, in selection order (their value/label
pairs reproduce the filtered selection), and every term's description is the
record's `fees_terms_description` field passed through `|| ''`. -/
theorem feesTermsDisplay_terms_characterization :
    (∀ (sel : List (String × String)) (d : Option String),
        (feesTermsDisplayTerms sel d).map (fun t => (t.value, t.label)) =
          sel.filter (fun it => decide (it.1 ≠ "") || decide (it.2 ≠ ""))) ∧
    (∀ (sel : List (String × String)) (d : Option String) (t : Term),
        t ∈ feesTermsDisplayTerms sel d → t.description = jsOrOpt d "") := by
  constructor
  · intro sel d
    simp only [feesTermsDisplayTerms, List.map_map]
    exact List.map_id _
  · intro sel d t ht
    simp only [feesTermsDisplayTerms, List.mem_map] at ht
    obtain ⟨it, _, rfl⟩ := ht
    rfl

/-- Witness for C10 at a concrete selection and record. -/
theorem feesTermsDisplay_terms_witness :
    ({ value := "a", label := "b", description := "d" } : Term) ∈
      feesTermsDisplayTerms [("a", "b")] (some "d") ∧
    ({ value := "a", label := "b", description := "d" } : Term).description =
      jsOrOpt (some "d") "" :=
  ⟨by decide,
   feesTermsDisplay_terms_characterization.2 [("a", "b")] (some "d")
     { value := "a", label := "b", description := "d" } (by decide)⟩

/-! ## Helper lemmas -/

/-- JavaScript `a || ""` is the identity on strings. -/
theorem jsOr_right_empty (a : String) : jsOr a "" = a := by
  by_cases h : a = "" <;> simp [jsOr, h]

/-- JavaScript `"" || b` yields `b`. -/
theorem jsOr_left_empty (b : String) : jsOr "" b = b := by
  simp [jsOr]

/-- With the sizer already present, `_createSizer` does nothing. -/
theorem createSizer_of_some (w : WidgetBox) (d : DomDoc) (z : SizerEl)
    (h : w.sizer = some z) : createSizer w d = (w, d) := by
  simp [createSizer, h]

/-- After `_createSizer`, the sizer reference is set. -/
theorem createSizer_sizer_ne (w : WidgetBox) (d : DomDoc) :
    (createSizer w d).1.sizer ≠ none := by
  cases hw : w.sizer <;> simp [createSizer, hw]

/-- `_createSizer` does not touch the resize counter. -/
theorem createSizer_count (w : WidgetBox) (d : DomDoc) :
    (createSizer w d).1.resizeCount = w.resizeCount := by
  cases hw : w.sizer <;> simp [createSizer, hw]

/-- One `_createSizer` call appends at most one node to the body. -/
theorem createSizer_body_le (w : WidgetBox) (d : DomDoc) :
    (createSizer w d).2.bodySizers.length ≤ d.bodySizers.length + 1 := by
  cases hw : w.sizer <;> simp [createSizer, hw]

/-- Two consecutive `_createSizer` calls equal one. -/
theorem createSizerP_idem (p : WidgetBox × DomDoc) :
    createSizerP (createSizerP p) = createSizerP p := by
  obtain ⟨w, d⟩ := p
  cases hw : w.sizer with
  | none =>
      have hz : (createSizer w d).1.sizer =
          some { id := d.nextId, textContent := "", font := d.bodyFont } := by
        simp [createSizer, hw]
      show createSizerP (createSizer w d) = createSizer w d
      have h2 := createSizer_of_some (createSizer w d).1 (createSizer w d).2 _ hz
      simpa [createSizerP] using h2
  | some z =>
      simp [createSizerP, createSizer_of_some w d z hw]

/-- The result of `_createSizer` is a fixed point of further calls. -/
theorem createSizerP_iter_fix (n : Nat) (p : WidgetBox × DomDoc) :
    createSizerP^[n] (createSizerP p) = createSizerP p := by
  induction n with
  | zero => rfl
  | succ n ih => rw [Function.iterate_succ_apply, createSizerP_idem, ih]

/-- With the sizer present, `InlineCharField._resizeInput` always succeeds,
bumps the invocation counter, and keeps the sizer present. -/
theorem charResizeInput_ok (m : Measure) (w : WidgetBox) (inp : Option InputEl)
    (z : SizerEl) (h : w.sizer = some z) :
    ∃ p, charResizeInput m w inp = .ok p ∧
      p.1.resizeCount = w.resizeCount + 1 ∧ p.1.sizer ≠ none := by
  cases inp with
  | none =>
      refine ⟨({ w with resizeCount := w.resizeCount + 1 }, none), rfl, rfl, ?_⟩
      simp [h]
  | some i =>
      by_cases hv : i.value = ""
      · refine ⟨({ w with
                    resizeCount := w.resizeCount + 1,
                    sizer := some { z with
                                    textContent := jsOr i.placeholder "",
                                    font := i.font } },
                  some { i with styleWidth := some (m i.font (jsOr i.placeholder "") + 10) }),
                ?_, rfl, by simp⟩
        simp [charResizeInput, hv, h]
      · refine ⟨({ w with resizeCount := w.resizeCount + 1 },
                  some { i with styleWidth := some (i.scrollWidth + 2) }),
                ?_, rfl, by simp [h]⟩
        simp [charResizeInput, hv]

/-- With the sizer and container present, `AutoMany2XAutocomplete._resizeInput`
always succeeds, bumps the invocation counter, and keeps the sizer present. -/
theorem autoResizeInput_ok (m : Measure) (dv : Option String) (w : WidgetBox)
    (z : SizerEl) (c : Option InputEl) (h : w.sizer = some z) :
    ∃ p, autoResizeInput m dv w (some c) = .ok p ∧
      p.1.resizeCount = w.resizeCount + 1 ∧ p.1.sizer ≠ none := by
  cases c with
  | none =>
      refine ⟨({ w with resizeCount := w.resizeCount + 1 }, some none), rfl, rfl, ?_⟩
      simp [h]
  | some i =>
      refine ⟨({ w with
                  resizeCount := w.resizeCount + 1,
                  sizer := some { z with
                                  textContent :=
                                    jsOrOpt dv (jsOr i.value (jsOr i.placeholder "")),
                                  font := i.font } },
                some (some { i with
                             styleWidth := some
                               (m i.font
                                 (jsOrOpt dv (jsOr i.value (jsOr i.placeholder ""))) + 20) })),
              ?_, rfl, by simp⟩
      simp [autoResizeInput, h]

/-- C6: a missing input element makes `_resizeInput` a silent no-op in both
widgets — it succeeds and leaves the sizer and the (absent) input untouched,
only the invocation counter moves — and on a mounted widget (sizer present,
container attached) the resize path has no other failure mode: it always
succeeds. -/
theorem resize_missing_input_noop :
    (∀ (m : Measure) (w : WidgetBox),
        charResizeInput m w none = .ok ({ w with resizeCount := w.resizeCount + 1 }, none)) ∧
    (∀ (m : Measure) (dv : Option String) (w : WidgetBox),
        autoResizeInput m dv w (some none) =
          .ok ({ w with resizeCount := w.resizeCount + 1 }, some none)) ∧
    (∀ (m : Measure) (w : WidgetBox) (z : SizerEl) (inp : Option InputEl),
        w.sizer = some z → ∃ p, charResizeInput m w inp = .ok p) ∧
    (∀ (m : Measure) (dv : Option String) (w : WidgetBox) (z : SizerEl)
        (c : Option InputEl), w.sizer = some z →
        ∃ p, autoResizeInput m dv w (some c) = .ok p) := by
  refine ⟨fun m w => rfl, fun m dv w => rfl,
          fun m w z inp h => ?_, fun m dv w z c h => ?_⟩
  · obtain ⟨p, hp, -, -⟩ := charResizeInput_ok m w inp z h
    exact ⟨p, hp⟩
  · obtain ⟨p, hp, -, -⟩ := autoResizeInput_ok m dv w z c h
    exact ⟨p, hp⟩

/-- Witness for C6 on a concrete mounted widget. -/
theorem resize_missing_input_noop_witness :
    wSample.sizer = some { id := 0, textContent := "", font := "16px serif" } ∧
    (∃ p, charResizeInput constMeasure wSample (some inpEmptyVal) = .ok p) :=
  ⟨rfl, resize_missing_input_noop.2.2.1 constMeasure wSample
          { id := 0, textContent := "", font := "16px serif" } (some inpEmptyVal) rfl⟩

/-- C7: `_createSizer` is idempotent — a second call changes nothing, any
number of calls grows the body by at most one node — and a call on an instance
without a sizer appends exactly one node, which the instance then owns. -/
theorem createSizer_idempotent_at_most_one :
    (∀ p : WidgetBox × DomDoc, createSizerP (createSizerP p) = createSizerP p) ∧
    (∀ (n : Nat) (p : WidgetBox × DomDoc),
        (createSizerP^[n] p).2.bodySizers.length ≤ p.2.bodySizers.length + 1) ∧
    (∀ (w : WidgetBox) (d : DomDoc), w.sizer = none →
        (createSizer w d).2.bodySizers = d.bodySizers ++ [d.nextId] ∧
        (createSizer w d).1.sizer =
          some { id := d.nextId, textContent := "", font := d.bodyFont }) := by
  refine ⟨createSizerP_idem, fun n p => ?_, fun w d h => ?_⟩
  · cases n with
    | zero => exact Nat.le_succ _
    | succ n =>
        rw [Function.iterate_succ_apply, createSizerP_iter_fix]
        exact createSizer_body_le p.1 p.2
  · constructor <;> simp [createSizer, h]

/-- Witness for C7 on a fresh instance over the empty document. -/
theorem createSizer_idempotent_witness :
    freshWidget.sizer = none ∧
    ((createSizer freshWidget emptyDoc).2.bodySizers =
        emptyDoc.bodySizers ++ [emptyDoc.nextId] ∧
      (createSizer freshWidget emptyDoc).1.sizer =
        some { id := emptyDoc.nextId, textContent := "", font := emptyDoc.bodyFont }) :=
  ⟨rfl, createSizer_idempotent_at_most_one.2.2 freshWidget emptyDoc rfl⟩

/-- C1 (counterexample): resizing the char field on the concrete non-empty
value "a" never touches the sizer — its text stays "" instead of "a" — and
the resulting width is scrollWidth + 2 = 102, which is not the sizer-measured
width of "a" plus any of the code's padding constants (2, 10, 20) under
`constMeasure`. -/
theorem charResize_nonempty_ignores_sizer_cex :
    charResizeInput constMeasure wSample (some inpA) =
      .ok ({ wSample with resizeCount := 1 },
           some { inpA with styleWidth := some 102 }) ∧
    ({ wSample with resizeCount := 1 } : WidgetBox).sizer =
      some { id := 0, textContent := "", font := "16px serif" } ∧
    ("" : String) ≠ inpA.value ∧
    (102 : Nat) ≠ constMeasure inpA.font inpA.value + 2 ∧
    (102 : Nat) ≠ constMeasure inpA.font inpA.value + 10 ∧
    (102 : Nat) ≠ constMeasure inpA.font inpA.value + 20 :=
  ⟨rfl, rfl, by decide, by decide, by decide, by decide⟩

/-- C1 (amended): the autocomplete variant sizes through the sizer on every
resize — the sizer receives the effective text and the input's font, and the
input width becomes the measured width plus 20, so sizer width equals input
width minus 20.  The char-field variant does so only when the value is empty
(placeholder text, padding 10); with a non-empty value the width is the
input's own scrollWidth plus 2 and the sizer is untouched. -/
theorem resize_width_sizer_relation :
    (∀ (m : Measure) (dv : Option String) (w : WidgetBox) (z : SizerEl) (inp : InputEl),
        w.sizer = some z →
        autoResizeInput m dv w (some (some inp)) =
          .ok ({ w with
                  resizeCount := w.resizeCount + 1,
                  sizer := some { id := z.id,
                                  textContent :=
                                    jsOrOpt dv (jsOr inp.value (jsOr inp.placeholder "")),
                                  font := inp.font } },
               some (some { inp with
                            styleWidth := some
                              (m inp.font
                                (jsOrOpt dv (jsOr inp.value (jsOr inp.placeholder ""))) +
                                20) }))) ∧
    (∀ (m : Measure) (w : WidgetBox) (z : SizerEl) (inp : InputEl),
        w.sizer = some z → inp.value = "" →
        charResizeInput m w (some inp) =
          .ok ({ w with
                  resizeCount := w.resizeCount + 1,
                  sizer := some { id := z.id,
                                  textContent := jsOr inp.placeholder "",
                                  font := inp.font } },
               some { inp with
                      styleWidth := some (m inp.font (jsOr inp.placeholder "") + 10) })) ∧
    (∀ (m : Measure) (w : WidgetBox) (inp : InputEl),
        inp.value ≠ "" →
        charResizeInput m w (some inp) =
          .ok ({ w with resizeCount := w.resizeCount + 1 },
               some { inp with styleWidth := some (inp.scrollWidth + 2) })) := by
  refine ⟨fun m dv w z inp h => ?_, fun m w z inp h hv => ?_, fun m w inp hv => ?_⟩
  · simp [autoResizeInput, h]
  · simp [charResizeInput, hv, h]
  · simp [charResizeInput, hv]

/-- Witness for C1 (amended) on a concrete autocomplete resize. -/
theorem resize_width_sizer_relation_witness :
    wSample.sizer = some { id := 0, textContent := "", font := "16px serif" } ∧
    autoResizeInput constMeasure none wSample (some (some inpEmptyVal)) =
      .ok ({ wSample with
              resizeCount := wSample.resizeCount + 1,
              sizer := some { id := 0,
                              textContent :=
                                jsOrOpt none
                                  (jsOr inpEmptyVal.value (jsOr inpEmptyVal.placeholder "")),
                              font := inpEmptyVal.font } },
           some (some { inpEmptyVal with
                        styleWidth := some
                          (constMeasure inpEmptyVal.font
                            (jsOrOpt none
                              (jsOr inpEmptyVal.value (jsOr inpEmptyVal.placeholder ""))) +
                            20) })) :=
  ⟨rfl, resize_width_sizer_relation.1 constMeasure none wSample
          { id := 0, textContent := "", font := "16px serif" } inpEmptyVal rfl⟩

/-- C4 (counterexample): on a resize where the input's value is empty but the
selection handler passed the display name "Bob", the measured text is "Bob",
not the placeholder "pick". -/
theorem select_default_overrides_placeholder_cex :
    inpEmptyVal.value = "" ∧
    autoResizeInput constMeasure (some "Bob") wSample (some (some inpEmptyVal)) =
      .ok ({ wSample with
              resizeCount := 1,
              sizer := some { id := 0, textContent := "Bob", font := "f" } },
           some (some { inpEmptyVal with styleWidth := some 25 })) ∧
    ("Bob" : String) ≠ inpEmptyVal.placeholder :=
  ⟨rfl, rfl, by decide⟩

/-- C4 (amended): with an empty value the measured text falls back to the
input's placeholder (hence to "" when there is none): always in the char
field, and in the autocomplete whenever the resize call carries no non-empty
explicit default text; a non-empty default — the selected option's display
name — takes precedence over the placeholder. -/
theorem empty_value_placeholder_fallback :
    (∀ (m : Measure) (w : WidgetBox) (z : SizerEl) (inp : InputEl),
        w.sizer = some z → inp.value = "" →
        charResizeInput m w (some inp) =
          .ok ({ w with
                  resizeCount := w.resizeCount + 1,
                  sizer := some { id := z.id,
                                  textContent := inp.placeholder,
                                  font := inp.font } },
               some { inp with
                      styleWidth := some (m inp.font inp.placeholder + 10) })) ∧
    (∀ (m : Measure) (w : WidgetBox) (z : SizerEl) (inp : InputEl) (dv : Option String),
        w.sizer = some z → inp.value = "" → (dv = none ∨ dv = some "") →
        autoResizeInput m dv w (some (some inp)) =
          .ok ({ w with
                  resizeCount := w.resizeCount + 1,
                  sizer := some { id := z.id,
                                  textContent := inp.placeholder,
                                  font := inp.font } },
               some (some { inp with
                            styleWidth := some (m inp.font inp.placeholder + 20) }))) ∧
    (∀ (m : Measure) (w : WidgetBox) (z : SizerEl) (inp : InputEl) (d : String),
        w.sizer = some z → d ≠ "" →
        autoResizeInput m (some d) w (some (some inp)) =
          .ok ({ w with
                  resizeCount := w.resizeCount + 1,
                  sizer := some { id := z.id, textContent := d, font := inp.font } },
               some (some { inp with
                            styleWidth := some (m inp.font d + 20) }))) := by
  refine ⟨fun m w z inp h hv => ?_, fun m w z inp dv h hv hdv => ?_,
          fun m w z inp d h hd => ?_⟩
  · simp [charResizeInput, hv, h, jsOr_right_empty]
  · rcases hdv with rfl | rfl <;>
      simp [autoResizeInput, h, hv, jsOrOpt, jsOr_left_empty, jsOr_right_empty]
  · simp [autoResizeInput, h, jsOrOpt, hd]

/-- Witness for C4 (amended) on a concrete empty-value char-field resize. -/
theorem empty_value_placeholder_fallback_witness :
    wSample.sizer = some { id := 0, textContent := "", font := "16px serif" } ∧
    inpEmptyVal.value = "" ∧
    charResizeInput constMeasure wSample (some inpEmptyVal) =
      .ok ({ wSample with
              resizeCount := wSample.resizeCount + 1,
              sizer := some { id := 0,
                              textContent := inpEmptyVal.placeholder,
                              font := inpEmptyVal.font } },
           some { inpEmptyVal with
                  styleWidth := some
                    (constMeasure inpEmptyVal.font inpEmptyVal.placeholder + 10) }) :=
  ⟨rfl, rfl, empty_value_placeholder_fallback.1 constMeasure wSample
               { id := 0, textContent := "", font := "16px serif" } inpEmptyVal rfl rfl⟩

/-- C5: whenever a resize goes through the sizer, the sizer's font is
overwritten with the input element's computed-style font before measuring, and
the measurement uses that font; consequently the outcome is independent of
whatever font the sizer carried before — in particular of the body font fixed
at sizer creation — in both widgets. -/
theorem sizer_font_reread_each_resize :
    (∀ (m : Measure) (w : WidgetBox) (z : SizerEl) (inp : InputEl),
        w.sizer = some z → inp.value = "" →
        ∃ p, charResizeInput m w (some inp) = .ok p ∧
          (∃ z1, p.1.sizer = some z1 ∧ z1.font = inp.font) ∧
          p.2 = some { inp with
                       styleWidth := some (m inp.font (jsOr inp.placeholder "") + 10) }) ∧
    (∀ (m : Measure) (dv : Option String) (w : WidgetBox) (z : SizerEl) (inp : InputEl),
        w.sizer = some z →
        ∃ p, autoResizeInput m dv w (some (some inp)) = .ok p ∧
          (∃ z1, p.1.sizer = some z1 ∧ z1.font = inp.font) ∧
          p.2 = some (some { inp with
                             styleWidth := some
                               (m inp.font
                                 (jsOrOpt dv (jsOr inp.value (jsOr inp.placeholder ""))) +
                                 20) })) ∧
    (∀ (m : Measure) (w : WidgetBox) (inp : InputEl) (z1 z2 : SizerEl),
        z1.id = z2.id → inp.value = "" →
        charResizeInput m { w with sizer := some z1 } (some inp) =
          charResizeInput m { w with sizer := some z2 } (some inp)) ∧
    (∀ (m : Measure) (dv : Option String) (w : WidgetBox) (inp : InputEl) (z1 z2 : SizerEl),
        z1.id = z2.id →
        autoResizeInput m dv { w with sizer := some z1 } (some (some inp)) =
          autoResizeInput m dv { w with sizer := some z2 } (some (some inp))) := by
  refine ⟨fun m w z inp h hv => ?_, fun m dv w z inp h => ?_,
          fun m w inp z1 z2 h12 hv => ?_, fun m dv w inp z1 z2 h12 => ?_⟩
  · refine ⟨({ w with
                resizeCount := w.resizeCount + 1,
                sizer := some { id := z.id,
                                textContent := jsOr inp.placeholder "",
                                font := inp.font } },
              some { inp with
                     styleWidth := some (m inp.font (jsOr inp.placeholder "") + 10) }),
            ?_, ⟨_, rfl, rfl⟩, rfl⟩
    simp [charResizeInput, hv, h]
  · refine ⟨({ w with
                resizeCount := w.resizeCount + 1,
                sizer := some { id := z.id,
                                textContent :=
                                  jsOrOpt dv (jsOr inp.value (jsOr inp.placeholder "")),
                                font := inp.font } },
              some (some { inp with
                           styleWidth := some
                             (m inp.font
                               (jsOrOpt dv (jsOr inp.value (jsOr inp.placeholder ""))) +
                               20) })),
            ?_, ⟨_, rfl, rfl⟩, rfl⟩
    simp [autoResizeInput, h]
  · simp [charResizeInput, hv, h12]
  · simp [autoResizeInput, h12]

/-- Witness for C5 on a concrete autocomplete resize. -/
theorem sizer_font_reread_witness :
    wSample.sizer = some { id := 0, textContent := "", font := "16px serif" } ∧
    (∃ p, autoResizeInput constMeasure none wSample (some (some inpA)) = .ok p ∧
      (∃ z1, p.1.sizer = some z1 ∧ z1.font = inpA.font) ∧
      p.2 = some (some { inpA with
                         styleWidth := some
                           (constMeasure inpA.font
                             (jsOrOpt none (jsOr inpA.value (jsOr inpA.placeholder ""))) +
                             20) })) :=
  ⟨rfl, sizer_font_reread_each_resize.2.1 constMeasure none wSample
          { id := 0, textContent := "", font := "16px serif" } inpA rfl⟩

/-- C3: every event a widget handles invokes the resize routine exactly once —
mounting creates the sizer and resizes, and each content-change or selection
event resizes again (the invocation counter advances by one and the handler
succeeds) — provided the event reaches a live widget: the mount event itself,
or any later event once the sizer exists (for the autocomplete, with its
container element attached, as it is while mounted). -/
theorem resize_invoked_on_every_event :
    (∀ (m : Measure) (e : CharEvent) (s : CharSys),
        (e = CharEvent.mounted ∨ s.widget.sizer ≠ none) →
        ∃ t : CharSys, charStep m e s = .ok t ∧
          t.widget.resizeCount = s.widget.resizeCount + 1 ∧
          t.widget.sizer ≠ none) ∧
    (∀ (m : Measure) (e : AutoEvent) (s : AutoSys) (c : Option InputEl),
        s.container = some c →
        (e = AutoEvent.mounted ∨ s.widget.sizer ≠ none) →
        ∃ t : AutoSys, autoStep m e s = .ok t ∧
          t.widget.resizeCount = s.widget.resizeCount + 1 ∧
          t.widget.sizer ≠ none) := by
  constructor
  · intro m e s he
    cases e with
    | mounted =>
        obtain ⟨z, hz⟩ : ∃ z, (createSizer s.widget s.doc).1.sizer = some z := by
          cases hq : (createSizer s.widget s.doc).1.sizer with
          | none => exact absurd hq (createSizer_sizer_ne s.widget s.doc)
          | some z => exact ⟨z, rfl⟩
        obtain ⟨p, hp, hc, hs⟩ :=
          charResizeInput_ok m (createSizer s.widget s.doc).1 s.input z hz
        refine ⟨⟨p.1, (createSizer s.widget s.doc).2, p.2⟩, ?_, ?_, hs⟩
        · simp [charStep, hp, Except.map]
        · rw [hc, createSizer_count]
    | inputType =>
        have hne : s.widget.sizer ≠ none := by
          rcases he with h | h
          · exact absurd h (by decide)
          · exact h
        obtain ⟨z, hz⟩ : ∃ z, s.widget.sizer = some z := by
          cases hq : s.widget.sizer with
          | none => exact absurd hq hne
          | some z => exact ⟨z, rfl⟩
        obtain ⟨p, hp, hc, hs⟩ := charResizeInput_ok m s.widget s.input z hz
        exact ⟨⟨p.1, s.doc, p.2⟩, by simp [charStep, hp, Except.map], hc, hs⟩
  · intro m e s c hcon he
    cases e with
    | mounted =>
        obtain ⟨z, hz⟩ : ∃ z, (createSizer s.widget s.doc).1.sizer = some z := by
          cases hq : (createSizer s.widget s.doc).1.sizer with
          | none => exact absurd hq (createSizer_sizer_ne s.widget s.doc)
          | some z => exact ⟨z, rfl⟩
        obtain ⟨p, hp, hc, hs⟩ :=
          autoResizeInput_ok m none (createSizer s.widget s.doc).1 z c hz
        refine ⟨⟨p.1, (createSizer s.widget s.doc).2, p.2⟩, ?_, ?_, hs⟩
        · simp [autoStep, hcon, hp, Except.map]
        · rw [hc, createSizer_count]
    | change v =>
        have hne : s.widget.sizer ≠ none := by
          rcases he with h | h
          · exact absurd h (by simp)
          · exact h
        obtain ⟨z, hz⟩ : ∃ z, s.widget.sizer = some z := by
          cases hq : s.widget.sizer with
          | none => exact absurd hq hne
          | some z => exact ⟨z, rfl⟩
        obtain ⟨p, hp, hc, hs⟩ := autoResizeInput_ok m none s.widget z c hz
        exact ⟨⟨p.1, s.doc, p.2⟩, by simp [autoStep, hcon, hp, Except.map], hc, hs⟩
    | select dn =>
        have hne : s.widget.sizer ≠ none := by
          rcases he with h | h
          · exact absurd h (by simp)
          · exact h
        obtain ⟨z, hz⟩ : ∃ z, s.widget.sizer = some z := by
          cases hq : s.widget.sizer with
          | none => exact absurd hq hne
          | some z => exact ⟨z, rfl⟩
        obtain ⟨p, hp, hc, hs⟩ := autoResizeInput_ok m dn s.widget z c hz
        exact ⟨⟨p.1, s.doc, p.2⟩, by simp [autoStep, hcon, hp, Except.map], hc, hs⟩

/-- Witness for C3: mounting a fresh char-field widget over the empty
document. -/
theorem resize_invoked_on_every_event_witness :
    ∃ t : CharSys, charStep constMeasure CharEvent.mounted charSysSample = .ok t ∧
      t.widget.resizeCount = charSysSample.widget.resizeCount + 1 ∧
      t.widget.sizer ≠ none :=
  resize_invoked_on_every_event.1 constMeasure CharEvent.mounted charSysSample (Or.inl rfl)
